import Mathlib

/-!
Verification of the DICOM viewer repository (src/DICOMLoader.py, src/GUI.py).

The embedding models:
* a pydicom dataset as a `Dataset` record carrying exactly the attributes the
  code reads (`ImagePositionPatient`, `PixelSpacing`, `SliceThickness`,
  `pixel_array`);
* physical measurements as rationals (the Python code computes with floats;
  every property checked here is an exact identity between the quoted
  formulas, which holds of the real arithmetic the floats approximate);
* pixel intensities as integers (`np.zeros` makes a float array and the
  assignments cast the integer pixel values into it; the values are preserved);
* a numpy volume of shape `(W, H, N)` as the list, indexed by the third axis
  `k`, of its 2-D cross-sections `volume_3d[:, :, k]`, each a `W`-list of
  `H`-rows;
* Python exceptions as an explicit error type, with fallible steps returning
  `Except` values; mutation of the `DICOMViewerGUI` object as explicit state
  passing on a `GuiState` record.

Python's `%` and `//` on `int` agree with Lean's `%` (`Int.emod`) and `/`
(`Int.ediv`) whenever the divisor is positive, which is the only case that
occurs below (divisors are axis lengths; a zero length raises
`ZeroDivisionError`, which the embedding models explicitly).
-/

deriving instance DecidableEq for Except

/-- A decoded DICOM slice file: the pydicom dataset attributes that
`load_dicom_folder` (src/DICOMLoader.py) reads. `ImagePositionPatient` is the
3-vector spatial position, `PixelSpacing` the pair of in-plane spacings (the
DICOM attribute is `(adjacent row spacing, adjacent column spacing)`),
`SliceThickness` the through-plane thickness, and `pixel_array` the decoded
2-D pixel grid as a list of rows. -/
structure Dataset where
  ImagePositionPatient : ℚ × ℚ × ℚ
  PixelSpacing : ℚ × ℚ
  SliceThickness : ℚ
  pixel_array : List (List Int)
deriving DecidableEq

/-- The sort key `x.ImagePositionPatient[2]` used by `load_dicom_folder`
(src/DICOMLoader.py line 33): the third component of the spatial position. -/
def posZ (d : Dataset) : ℚ := d.ImagePositionPatient.2.2

/-- Comparison of two slices by the sort key. -/
def sliceLE (a b : Dataset) : Prop := posZ a ≤ posZ b

instance : DecidableRel sliceLE :=
  fun a b => inferInstanceAs (Decidable (posZ a ≤ posZ b))

instance : IsTotal Dataset sliceLE := ⟨fun a b => le_total (posZ a) (posZ b)⟩

instance : IsTrans Dataset sliceLE := ⟨fun _ _ _ h1 h2 => le_trans h1 h2⟩

/-- `sorted(slices, key=lambda x: x.ImagePositionPatient[2])`
(src/DICOMLoader.py line 33). Python's `sorted` is a stable sort; insertion
sort inserting each earlier element in front of the first later element that
is `≥` it is also stable, so the two agree on every input, ties included. -/
def sortSlices (l : List Dataset) : List Dataset := List.insertionSort sliceLE l

/-- Shape of a 2-D numpy array represented as a list of rows (numpy arrays
are rectangular, so the length of the first row is the column count). -/
def npShape (g : List (List Int)) : Nat × Nat := (g.length, (g.headD []).length)

/-- Whether numpy accepts `volume_3d[:, :, i] = array_2_d`
(src/DICOMLoader.py line 53) for a 2-D `array_2_d` of this shape: each axis
of the source must either match the destination axis (`W` resp. `H`) or be 1
(broadcasting). -/
def canBroadcast (W H : Nat) (g : List (List Int)) : Bool :=
  (g.length == W || g.length == 1) && ((g.headD []).length == H || (g.headD []).length == 1)

/-- The `(W, H)` array stored by `volume_3d[:, :, i] = array_2_d`: the source
array broadcast to the destination shape (a size-1 source axis repeats its
single entry). -/
def broadcastTo (W H : Nat) (g : List (List Int)) : List (List Int) :=
  (List.range W).map fun i =>
    (List.range H).map fun j =>
      (g.getD (if g.length == 1 then 0 else i) []).getD
        (if (g.headD []).length == 1 then 0 else j) 0

/-- Python exceptions raised by the embedded code paths. The repository
defines no exception classes of its own; failures surface as these built-in
exceptions. `notLoadedError` is modelled from the spec: the spec's error
taxonomy names a `NotLoadedError`, but nothing in src/ defines or raises it —
the constructor exists only so that statements about it can be written. -/
inductive PyError
  | typeError
  | valueError
  | indexError
  | zeroDivisionError
  | notLoadedError
deriving DecidableEq

/-- The tuple returned by `load_dicom_folder` (src/DICOMLoader.py line 55).
`volume_3d` is the assembled array of shape `(W, H, N)`, represented by its
list of cross-sections `volume_3d[:, :, k]`; `image_shape` is the Python list
`[W, H, N]` (of Python ints, hence `List Int` — the GUI later stores modular
remainders into it). -/
structure LoadResult where
  volume_3d : List (List (List Int))
  image_shape : List Int
  axial_aspect_ratio : ℚ
  sagittal_aspect_ratio : ℚ
  coronal_aspect_ratio : ℚ
deriving DecidableEq

/-- The loop `for i, s in enumerate(slices): volume_3d[:, :, i] = s.pixel_array`
(src/DICOMLoader.py lines 51-53) over the sorted slices. Every index `i` in
range is assigned exactly once, so the zero-initialised array contributes
nothing and the resulting volume is the list of broadcast pixel grids; the
first slice whose grid cannot broadcast into `(W, H)` raises a numpy
`ValueError` and the function never returns. -/
def buildVolume (W H : Nat) : List Dataset → Except PyError (List (List (List Int)))
  | [] => .ok []
  | s :: rest =>
    if canBroadcast W H s.pixel_array then
      match buildVolume W H rest with
      | .ok gs => .ok (broadcastTo W H s.pixel_array :: gs)
      | .error e => .error e
    else .error .valueError

namespace DICOMLoader

/-- Shallow embedding of `load_dicom_folder` (src/DICOMLoader.py lines 8-55).
The folder enumeration and per-file `dicom.read_file(..., force=True)` are
modelled by taking the list of decoded datasets in enumeration order as the
argument. The function sorts by `ImagePositionPatient[2]`, takes spacing and
thickness from the first sorted slice (`slices[0]` raises `IndexError` on an
empty folder), computes the three aspect ratios (a zero spacing component
would raise `ZeroDivisionError` at the corresponding division), takes
`image_shape` from the first sorted slice's `pixel_array.shape` plus the
slice count, and fills the volume slice by slice. The `print` diagnostics
have no effect on the result and are not modelled. -/
def load_dicom_folder (files : List Dataset) : Except PyError LoadResult :=
  match sortSlices files with
  | [] => .error .indexError
  | s0 :: rest =>
    if s0.PixelSpacing.1 = 0 then .error .zeroDivisionError
    else if s0.PixelSpacing.2 = 0 then .error .zeroDivisionError
    else
      let axial := s0.PixelSpacing.2 / s0.PixelSpacing.1
      let sagittal := s0.PixelSpacing.1 / s0.PixelSpacing.2
      let coronal := s0.SliceThickness / s0.PixelSpacing.1
      let W := (npShape s0.pixel_array).1
      let H := (npShape s0.pixel_array).2
      match buildVolume W H (s0 :: rest) with
      | .error e => .error e
      | .ok vol =>
        .ok ⟨vol, [(W : Int), (H : Int), ((s0 :: rest).length : Int)], axial, sagittal, coronal⟩

end DICOMLoader

/-- Row spacing of a slice: the DICOM attribute `PixelSpacing` is the pair
`(adjacent row spacing, adjacent column spacing)`, so this is its first
component (`pix_spacing[0]` in the source). -/
def rowSpacing (d : Dataset) : ℚ := d.PixelSpacing.1

/-- Column spacing of a slice: the second component of `PixelSpacing`
(`pix_spacing[1]` in the source). -/
def colSpacing (d : Dataset) : ℚ := d.PixelSpacing.2

/-- Modelled from the spec's words: the axial aspect ratio formula the claim
states, `axial = rowSpacing / colSpacing`, for comparison with the code. -/
def specAxialRatio (d : Dataset) : ℚ := rowSpacing d / colSpacing d

/-- Modelled from the spec's words: the coronal aspect ratio formula the
claim states, `coronal = thickness / colSpacing`, for comparison with the
code. -/
def specCoronalRatio (d : Dataset) : ℚ := d.SliceThickness / colSpacing d

namespace DICOMViewerGUI

/-- The mutable attributes of a `DICOMViewerGUI` object (src/GUI.py
`__init__`, lines 62-75) that the core logic reads or writes. `fig` and
`axs` are created together by `display_dicom`; for the control flow all that
matters is whether they are still `None`, recorded as `axs_created`. The
Tkinter widgets themselves are presentation glue with no effect on this
state. -/
structure GuiState where
  volume_3d : Option (List (List (List Int)))
  current_slice : Int
  image_shape : Option (List Int)
  axial_aspect_ratio : Option ℚ
  sagittal_aspect_ratio : Option ℚ
  coronal_aspect_ratio : Option ℚ
  zoom_mode : String
  axs_created : Bool
deriving DecidableEq

/-- The state set up by `__init__` (src/GUI.py lines 62-73): everything
`None` (modelled `none`), `current_slice = 0`, `zoom_mode = "Axial"`. -/
def initial : GuiState :=
  { volume_3d := none
    current_slice := 0
    image_shape := none
    axial_aspect_ratio := none
    sagittal_aspect_ratio := none
    coronal_aspect_ratio := none
    zoom_mode := "Axial"
    axs_created := false }

/-- Number of slices `N` of a volume (its extent along axis 2). -/
def volN (v : List (List (List Int))) : Nat := v.length

/-- Extent `W` of a volume along axis 0 (rows of each cross-section). -/
def volW (v : List (List (List Int))) : Nat := (v.headD []).length

/-- Extent `H` of a volume along axis 1 (columns of each cross-section). -/
def volH (v : List (List (List Int))) : Nat := ((v.headD []).headD []).length

/-- `len(self.volume_3d[0, 0, :])` (src/GUI.py lines 156, 158), the length
`N` of axis 2. On `None` the subscript raises `TypeError`; the literal
indices 0 on axes 0 and 1 raise `IndexError` when `W = 0` or `H = 0`. The
representation reads `W` and `H` off the first cross-section, which agrees
with numpy on every volume the loader can produce (nonempty rectangular
stacks). -/
def npLenAxis2 : Option (List (List (List Int))) → Except PyError Nat
  | none => .error .typeError
  | some v => if 0 < volW v ∧ 0 < volH v then .ok (volN v) else .error .indexError

/-- `len(self.volume_3d[0, :, 0])` (src/GUI.py lines 161, 163), the length
`H` of axis 1; the index 0 on axes 0 and 2 needs `W > 0` and `N > 0`. -/
def npLenAxis1 : Option (List (List (List Int))) → Except PyError Nat
  | none => .error .typeError
  | some v => if 0 < volW v ∧ 0 < volN v then .ok (volH v) else .error .indexError

/-- `len(self.volume_3d[:, 0, 0])` (src/GUI.py lines 166, 168), the length
`W` of axis 0; the index 0 on axes 1 and 2 needs `H > 0` and `N > 0`. -/
def npLenAxis0 : Option (List (List (List Int))) → Except PyError Nat
  | none => .error .typeError
  | some v => if 0 < volH v ∧ 0 < volN v then .ok (volW v) else .error .indexError

/-- Python's `%` on integers. For a positive modulus it is `Int.emod` (the
result takes the sign of the divisor, so it lies in `[0, b)`); `% 0` raises
`ZeroDivisionError`. Negative divisors never occur (divisors are lengths). -/
def pyMod (a b : Int) : Except PyError Int :=
  if b = 0 then .error .zeroDivisionError else .ok (a % b)

/-- Read `xs[i]` (a literal nonnegative index) from an attribute that may
still be `None`: `TypeError` on `None`, `IndexError` past the end. -/
def optGet (o : Option (List Int)) (i : Nat) : Except PyError Int :=
  match o with
  | none => .error .typeError
  | some xs => if h : i < xs.length then .ok (xs.get ⟨i, h⟩) else .error .indexError

/-- Assign `xs[i] = val` (a literal nonnegative index) on an attribute that
may still be `None`. -/
def optSet (o : Option (List Int)) (i : Nat) (val : Int) : Except PyError (List Int) :=
  match o with
  | none => .error .typeError
  | some xs => if i < xs.length then .ok (xs.set i val) else .error .indexError

/-- A Python `int` used as a numpy index on an axis of length `n`: indices in
`[-n, n)` are accepted, negative ones counting from the end; anything else
raises `IndexError`. The accepted value is `i % n` in both cases. -/
def npIndex (n : Nat) (i : Int) : Except PyError Nat :=
  if -(n : Int) ≤ i ∧ i < (n : Int) then
    if n = 0 then .error .indexError else .ok ((i % (n : Int)).toNat)
  else .error .indexError

/-- `update_plots` (src/GUI.py lines 122-145). Its only effects on the model
are the reads it performs and the exceptions they can raise; the return
value collects the three 2-D images it draws, in source order:
`axial_image = volume_3d[:, :, current_slice]` (the cross-section at the
current slice), `sagittal_image = volume_3d[:, image_shape[1] // 2, :]`
(rows indexed by axis 0, columns by axis 2), and
`coronal_image = volume_3d[image_shape[0] // 2, :, :].T` (rows indexed by
axis 2 after the transpose). The first statement `for ax in self.axs:`
raises `TypeError` while `axs` is still `None`, as does subscripting a
`None` volume or `None` `image_shape`. -/
def update_plots (st : GuiState) :
    Except PyError (List (List Int) × List (List Int) × List (List Int)) :=
  if st.axs_created = false then .error .typeError
  else
    match st.volume_3d with
    | none => .error .typeError
    | some v =>
      match npIndex (volN v) st.current_slice with
      | .error e => .error e
      | .ok k =>
        let axialImage := v.getD k []
        match optGet st.image_shape 1 with
        | .error e => .error e
        | .ok s1 =>
          match npIndex (volH v) (s1 / 2) with
          | .error e => .error e
          | .ok j =>
            let sagittalImage := (List.range (volW v)).map fun x =>
              v.map fun g => (g.getD x []).getD j 0
            match optGet st.image_shape 0 with
            | .error e => .error e
            | .ok s0 =>
              match npIndex (volW v) (s0 / 2) with
              | .error e => .error e
              | .ok i =>
                let coronalImage := v.map fun g => g.getD i []
                .ok (axialImage, sagittalImage, coronalImage)

/-- Finish a handler with the `self.update_plots()` call it ends on:
`update_plots` mutates nothing, so the state is kept either way, and an
exception it raises propagates out of the handler. -/
def withUpdate (st : GuiState) : GuiState × Option PyError :=
  match update_plots st with
  | .ok _ => (st, none)
  | .error e => (st, some e)

/-- `display_dicom` (src/GUI.py lines 87-99): creates the figure and axes
(line 94, recorded as `axs_created := true`), then sets
`current_slice = image_shape[2] // 2` (line 95; reading `image_shape[2]`
raises after the figure was already created if the attribute is `None`), and
calls `add_plot_to_gui`, whose only model-visible step is its final
`update_plots()` call (the buttons and canvas are presentation glue).
`mplcursors.cursor` has no model effect. -/
def display_dicom (st : GuiState) : GuiState × Option PyError :=
  let st1 := { st with axs_created := true }
  match optGet st1.image_shape 2 with
  | .error e => (st1, some e)
  | .ok n2 => withUpdate { st1 with current_slice := n2 / 2 }

/-- The GUI handler `load_dicom_folder` (src/GUI.py lines 77-85).
`filedialog.askdirectory` is modelled by the `Option` argument: `none` is a
cancelled dialog (falsy path, nothing happens), `some files` is a chosen
folder with the given decodable contents. The Python tuple assignment on
lines 83-84 evaluates its entire right-hand side — the call to the loader —
before assigning to any attribute, so a loader exception leaves every
attribute unchanged and propagates to the caller. On success all five
attributes are replaced and `display_dicom` runs. -/
def load_dicom_folder (st : GuiState) (dialog : Option (List Dataset)) :
    GuiState × Option PyError :=
  match dialog with
  | none => (st, none)
  | some files =>
    match DICOMLoader.load_dicom_folder files with
    | .error e => (st, some e)
    | .ok r =>
      display_dicom { st with
        volume_3d := some r.volume_3d
        image_shape := some r.image_shape
        axial_aspect_ratio := some r.axial_aspect_ratio
        sagittal_aspect_ratio := some r.sagittal_aspect_ratio
        coronal_aspect_ratio := some r.coronal_aspect_ratio }

/-- `on_scroll` (src/GUI.py lines 147-170). `event.button` is the matplotlib
scroll direction string (`"up"` or `"down"`; anything else matches no
branch). Depending on `zoom_mode`, the handler reassigns `current_slice`,
`image_shape[1]` or `image_shape[0]` to its old value ±5 reduced modulo the
length of the corresponding volume axis, each right-hand side being
evaluated in source order (old value, then axis length, then `%`) before the
assignment, so an exception leaves the state unchanged. Every path ends in
`update_plots()`. -/
def on_scroll (st : GuiState) (button : String) : GuiState × Option PyError :=
  let stepped : Except PyError GuiState :=
    if st.zoom_mode = "Axial" then
      if button = "up" then
        match npLenAxis2 st.volume_3d with
        | .error e => .error e
        | .ok n =>
          match pyMod (st.current_slice + 5) (n : Int) with
          | .error e => .error e
          | .ok c => .ok { st with current_slice := c }
      else if button = "down" then
        match npLenAxis2 st.volume_3d with
        | .error e => .error e
        | .ok n =>
          match pyMod (st.current_slice - 5) (n : Int) with
          | .error e => .error e
          | .ok c => .ok { st with current_slice := c }
      else .ok st
    else if st.zoom_mode = "Sagittal" then
      if button = "up" then
        match optGet st.image_shape 1 with
        | .error e => .error e
        | .ok s1 =>
          match npLenAxis1 st.volume_3d with
          | .error e => .error e
          | .ok h =>
            match pyMod (s1 + 5) (h : Int) with
            | .error e => .error e
            | .ok val =>
              match optSet st.image_shape 1 val with
              | .error e => .error e
              | .ok xs => .ok { st with image_shape := some xs }
      else if button = "down" then
        match optGet st.image_shape 1 with
        | .error e => .error e
        | .ok s1 =>
          match npLenAxis1 st.volume_3d with
          | .error e => .error e
          | .ok h =>
            match pyMod (s1 - 5) (h : Int) with
            | .error e => .error e
            | .ok val =>
              match optSet st.image_shape 1 val with
              | .error e => .error e
              | .ok xs => .ok { st with image_shape := some xs }
      else .ok st
    else if st.zoom_mode = "Coronal" then
      if button = "up" then
        match optGet st.image_shape 0 with
        | .error e => .error e
        | .ok s0 =>
          match npLenAxis0 st.volume_3d with
          | .error e => .error e
          | .ok w =>
            match pyMod (s0 + 5) (w : Int) with
            | .error e => .error e
            | .ok val =>
              match optSet st.image_shape 0 val with
              | .error e => .error e
              | .ok xs => .ok { st with image_shape := some xs }
      else if button = "down" then
        match optGet st.image_shape 0 with
        | .error e => .error e
        | .ok s0 =>
          match npLenAxis0 st.volume_3d with
          | .error e => .error e
          | .ok w =>
            match pyMod (s0 - 5) (w : Int) with
            | .error e => .error e
            | .ok val =>
              match optSet st.image_shape 0 val with
              | .error e => .error e
              | .ok xs => .ok { st with image_shape := some xs }
      else .ok st
    else .ok st
  match stepped with
  | .error e => (st, some e)
  | .ok st1 => withUpdate st1

/-- `set_zoom_mode` (src/GUI.py lines 172-181): stores the mode string and
calls `update_plots`. -/
def set_zoom_mode (st : GuiState) (mode : String) : GuiState × Option PyError :=
  withUpdate { st with zoom_mode := mode }

/-- Iterated forward scrolling: `scrollUpIter st k` applies `on_scroll`
with button `"up"` to the state `k` times. -/
def scrollUpIter (st : GuiState) : Nat → GuiState
  | 0 => st
  | k + 1 => scrollUpIter (on_scroll st "up").1 k

/-- The state after delivering an arbitrary sequence of scroll events. -/
def scrollSeq (st : GuiState) (buttons : List String) : GuiState :=
  buttons.foldl (fun s b => (on_scroll s b).1) st

end DICOMViewerGUI

/-! Facts about the sorting step. -/

theorem sortSlices_perm (l : List Dataset) : (sortSlices l).Perm l :=
  List.perm_insertionSort sliceLE l

theorem sortSlices_pairwise (l : List Dataset) : (sortSlices l).Pairwise sliceLE :=
  List.sorted_insertionSort sliceLE l

/-- Any two enumeration orders of the same slice files sort identically,
provided no two files share the value of the sort key: a permutation of a
list with pairwise distinct keys has the same strictly-sorted arrangement. -/
theorem sortSlices_eq_of_perm {l₁ l₂ : List Dataset} (hperm : l₁.Perm l₂)
    (hdist : l₁.Pairwise fun a b => posZ a ≠ posZ b) :
    sortSlices l₁ = sortSlices l₂ := by
  have hp : (sortSlices l₁).Perm (sortSlices l₂) :=
    (sortSlices_perm l₁).trans (hperm.trans (sortSlices_perm l₂).symm)
  have hsymm : ∀ {x y : Dataset}, posZ x ≠ posZ y → posZ y ≠ posZ x :=
    fun h he => h he.symm
  have hd1 : (sortSlices l₁).Pairwise fun a b => posZ a ≠ posZ b :=
    (List.Perm.pairwise_iff hsymm (sortSlices_perm l₁)).mpr hdist
  have hd2 : (sortSlices l₂).Pairwise fun a b => posZ a ≠ posZ b :=
    (List.Perm.pairwise_iff hsymm hp).mp hd1
  have hs1 : (sortSlices l₁).Pairwise fun a b => posZ a < posZ b :=
    ((sortSlices_pairwise l₁).and hd1).imp fun h => lt_of_le_of_ne h.1 h.2
  have hs2 : (sortSlices l₂).Pairwise fun a b => posZ a < posZ b :=
    ((sortSlices_pairwise l₂).and hd2).imp fun h => lt_of_le_of_ne h.1 h.2
  haveI : IsAntisymm Dataset (fun a b => posZ a < posZ b) :=
    ⟨fun _ _ h1 h2 => absurd h2 (lt_asymm h1)⟩
  exact List.eq_of_perm_of_sorted hp hs1 hs2

/-! Facts about the assignment loop. -/

theorem headD_length_of_rect {H : Nat} {g : List (List Int)} (hne : g ≠ [])
    (hrows : ∀ row ∈ g, row.length = H) : (g.headD []).length = H := by
  cases g with
  | nil => exact absurd rfl hne
  | cons r t => simpa using hrows r (List.mem_cons_self r t)

theorem canBroadcast_of_shape {W H : Nat} {g : List (List Int)} (hlen : g.length = W)
    (hhead : (g.headD []).length = H) : canBroadcast W H g = true := by
  unfold canBroadcast
  rw [hlen, hhead]
  simp

/-- Storing an array whose shape already equals the destination shape copies
it unchanged. -/
theorem broadcastTo_eq_self {W H : Nat} {g : List (List Int)} (hW : 0 < W)
    (hlen : g.length = W) (hrows : ∀ row ∈ g, row.length = H) :
    broadcastTo W H g = g := by
  have hne : g ≠ [] := by
    intro h
    rw [h] at hlen
    simp at hlen
    omega
  have hhead : (g.headD []).length = H := headD_length_of_rect hne hrows
  apply List.ext_getElem
  · simp [broadcastTo, hlen]
  intro i hi1 hi2
  have hiW : i < W := by simpa [broadcastTo] using hi1
  have hig : i < g.length := by omega
  have hrowlen : g[i].length = H := hrows g[i] (List.getElem_mem hig)
  simp only [broadcastTo, List.getElem_map, List.getElem_range]
  have hsel : (if g.length == 1 then 0 else i) = i := by
    by_cases hc : g.length = 1
    · have : i = 0 := by omega
      simp [hc, this]
    · simp [hc]
  rw [hsel]
  apply List.ext_getElem
  · simpa using hrowlen.symm
  intro j hj1 hj2
  have hjH : j < H := by simpa using hj1
  simp only [List.getElem_map, List.getElem_range]
  have hsel2 : (if (g.headD []).length == 1 then 0 else j) = j := by
    rw [hhead]
    by_cases hc : H = 1
    · have : j = 0 := by omega
      simp [hc, this]
    · simp [hc]
  rw [hsel2, List.getD_eq_getElem g [] hig, List.getD_eq_getElem g[i] 0 (by omega)]

/-- When every slice's grid is rectangular with the destination shape, the
assignment loop succeeds and the volume is exactly the list of pixel grids
in iteration order. -/
theorem buildVolume_ok {W H : Nat} (hW : 0 < W) :
    ∀ l : List Dataset,
      (∀ d ∈ l, d.pixel_array.length = W ∧ ∀ row ∈ d.pixel_array, row.length = H) →
      buildVolume W H l = .ok (l.map Dataset.pixel_array)
  | [], _ => rfl
  | s :: rest, hshape => by
    have hs := hshape s (List.mem_cons_self s rest)
    have hne : s.pixel_array ≠ [] := by
      intro h
      rw [h] at hs
      simp at hs
      omega
    rw [buildVolume,
      if_pos (canBroadcast_of_shape hs.1 (headD_length_of_rect hne hs.2)),
      buildVolume_ok hW rest (fun d hd => hshape d (List.mem_cons_of_mem s hd)),
      broadcastTo_eq_self hW hs.1 hs.2]
    simp

/-- Full characterisation of a successful load: for a nonempty folder of
rectangular same-shape slices with nonzero spacing on the first sorted
slice, `load_dicom_folder` returns the sorted pixel grids, the shape list,
and the three ratios computed from the first sorted slice. -/
theorem load_spec {files : List Dataset} {s0 : Dataset} {rest : List Dataset} {W H : Nat}
    (hW : 0 < W) (hsort : sortSlices files = s0 :: rest)
    (hshape : ∀ d ∈ files, d.pixel_array.length = W ∧ ∀ row ∈ d.pixel_array, row.length = H)
    (hps1 : s0.PixelSpacing.1 ≠ 0) (hps2 : s0.PixelSpacing.2 ≠ 0) :
    DICOMLoader.load_dicom_folder files =
      .ok ⟨(s0 :: rest).map Dataset.pixel_array,
           [(W : Int), (H : Int), ((s0 :: rest).length : Int)],
           s0.PixelSpacing.2 / s0.PixelSpacing.1,
           s0.PixelSpacing.1 / s0.PixelSpacing.2,
           s0.SliceThickness / s0.PixelSpacing.1⟩ := by
  have hshape' : ∀ d ∈ s0 :: rest, d.pixel_array.length = W ∧
      ∀ row ∈ d.pixel_array, row.length = H := by
    intro d hd
    apply hshape
    apply (sortSlices_perm files).subset
    rw [hsort]
    exact hd
  have hs0 := hshape' s0 (List.mem_cons_self s0 rest)
  have hne : s0.pixel_array ≠ [] := by
    intro h
    rw [h] at hs0
    simp at hs0
    omega
  have hnp : npShape s0.pixel_array = (W, H) := by
    rw [npShape, hs0.1, headD_length_of_rect hne hs0.2]
  unfold DICOMLoader.load_dicom_folder
  rw [hsort]
  simp only [if_neg hps1, if_neg hps2, hnp]
  rw [buildVolume_ok hW (s0 :: rest) hshape']

/-- Inversion of a successful load: it came from a nonempty sorted list via
the assignment loop, with the ratios computed from the first sorted slice. -/
theorem load_ok_inv {files : List Dataset} {r : LoadResult}
    (hok : DICOMLoader.load_dicom_folder files = .ok r) :
    ∃ s0 rest vol,
      sortSlices files = s0 :: rest ∧
      s0.PixelSpacing.1 ≠ 0 ∧ s0.PixelSpacing.2 ≠ 0 ∧
      buildVolume (npShape s0.pixel_array).1 (npShape s0.pixel_array).2 (s0 :: rest) = .ok vol ∧
      r = ⟨vol,
           [((npShape s0.pixel_array).1 : Int), ((npShape s0.pixel_array).2 : Int),
            ((s0 :: rest).length : Int)],
           s0.PixelSpacing.2 / s0.PixelSpacing.1,
           s0.PixelSpacing.1 / s0.PixelSpacing.2,
           s0.SliceThickness / s0.PixelSpacing.1⟩ := by
  unfold DICOMLoader.load_dicom_folder at hok
  cases hs : sortSlices files with
  | nil =>
    rw [hs] at hok
    simp at hok
  | cons s0 rest =>
    rw [hs] at hok
    by_cases h1 : s0.PixelSpacing.1 = 0
    · simp [h1] at hok
    by_cases h2 : s0.PixelSpacing.2 = 0
    · simp [h1, h2] at hok
    simp only [if_neg h1, if_neg h2] at hok
    cases hb : buildVolume (npShape s0.pixel_array).1 (npShape s0.pixel_array).2 (s0 :: rest) with
    | error e =>
      rw [hb] at hok
      simp at hok
    | ok vol =>
      rw [hb] at hok
      simp only [Except.ok.injEq] at hok
      exact ⟨s0, rest, vol, rfl, h1, h2, hb, hok.symm⟩

/-- A nonempty folder of rectangular same-shape slices with nonzero spacings
loads successfully, with no condition relating the slices' geometries. -/
theorem load_ok_of_shape {files : List Dataset} {W H : Nat} (hW : 0 < W)
    (hne : files ≠ [])
    (hshape : ∀ d ∈ files, d.pixel_array.length = W ∧ ∀ row ∈ d.pixel_array, row.length = H)
    (hps : ∀ d ∈ files, d.PixelSpacing.1 ≠ 0 ∧ d.PixelSpacing.2 ≠ 0) :
    (DICOMLoader.load_dicom_folder files).toOption.isSome = true := by
  cases hs : sortSlices files with
  | nil =>
    exfalso
    apply hne
    have := (sortSlices_perm files).length_eq
    rw [hs] at this
    exact List.eq_nil_of_length_eq_zero this.symm
  | cons s0 rest =>
    have hmem0 : s0 ∈ files := by
      apply (sortSlices_perm files).subset
      rw [hs]
      exact List.mem_cons_self s0 rest
    rw [load_spec hW hs hshape (hps s0 hmem0).1 (hps s0 hmem0).2]
    rfl

/-! Concrete slice data used in witnesses and counterexamples. -/

/-- A 1×1 slice at position z = 0 with unit geometry and pixel value 1. -/
def dsZ0 : Dataset := ⟨(0, 0, 0), (1, 1), 1, [[1]]⟩

/-- A 1×1 slice at position z = 1 with unit geometry and pixel value 2. -/
def dsZ1 : Dataset := ⟨(0, 0, 1), (1, 1), 1, [[2]]⟩

/-- A 1×1 slice at position z = 0 with pixel value 2: identical geometry to
`dsZ0` and the same sort key, but different pixel data. -/
def dsTie : Dataset := ⟨(0, 0, 0), (1, 1), 1, [[2]]⟩

/-- A 1×1 slice with row spacing 1, column spacing 2 and thickness 3. -/
def dsSpacing : Dataset := ⟨(0, 0, 0), (1, 2), 3, [[0]]⟩

/-- A 1×1 slice at z = 1 with pixel spacing (2, 2): the same grid shape as
`dsZ0` but a different pixel spacing. -/
def dsPs2 : Dataset := ⟨(0, 0, 1), (2, 2), 1, [[2]]⟩

/-- C1 (amended): assembling the same slices in any enumeration order yields
an identical result, provided no two slices share the third component of
their spatial position. For such inputs the ascending sort on
`ImagePositionPatient[2]` determines the arrangement uniquely, so
`load_dicom_folder` is invariant under permutation of the file order. (When
two slices tie on the key the stable sort preserves enumeration order and
the output does depend on it — see the counterexample.) -/
theorem claim_C1_theorem {files₁ files₂ : List Dataset} (hperm : files₁.Perm files₂)
    (hdist : files₁.Pairwise fun a b => posZ a ≠ posZ b) :
    DICOMLoader.load_dicom_folder files₁ = DICOMLoader.load_dicom_folder files₂ := by
  unfold DICOMLoader.load_dicom_folder
  rw [sortSlices_eq_of_perm hperm hdist]

/-- Witness for C1: the two-slice set at distinct positions 0 and 1 loads to
the same result from either enumeration order. -/
theorem claim_C1_witness :
    DICOMLoader.load_dicom_folder [dsZ1, dsZ0] = DICOMLoader.load_dicom_folder [dsZ0, dsZ1] :=
  claim_C1_theorem (by decide) (by decide)

/-- C1 counterexample: two geometry-consistent slices that share the same
third position component but have different pixel data. Both enumeration
orders load successfully, yet the assembled volumes differ, so the claimed
order-independence fails for valid slice sets with tied positions. -/
theorem claim_C1_counterexample :
    (DICOMLoader.load_dicom_folder [dsZ0, dsTie]).toOption.map LoadResult.volume_3d ≠
      (DICOMLoader.load_dicom_folder [dsTie, dsZ0]).toOption.map LoadResult.volume_3d ∧
    (DICOMLoader.load_dicom_folder [dsZ0, dsTie]).toOption.isSome = true ∧
    (DICOMLoader.load_dicom_folder [dsTie, dsZ0]).toOption.isSome = true ∧
    List.Perm [dsZ0, dsTie] [dsTie, dsZ0] := by
  decide

/-- C2: for every nonempty valid slice set — rectangular pixel grids all of
shape (W, H) with W > 0, nonzero spacing components on the first sorted
slice — the load succeeds, `image_shape` is [W, H, N] with N the slice
count, the volume is the list of the sorted slices' pixel grids (the i-th
sorted slice occupies `volume_3d[:, :, i]`), the sorted order ascends in the
third position component, and the first volume slice belongs to a slice of
minimal third position component regardless of enumeration order. -/
theorem claim_C2_theorem {files : List Dataset} {s0 : Dataset} {rest : List Dataset}
    {W H : Nat} (hW : 0 < W) (hsort : sortSlices files = s0 :: rest)
    (hshape : ∀ d ∈ files, d.pixel_array.length = W ∧ ∀ row ∈ d.pixel_array, row.length = H)
    (hps1 : s0.PixelSpacing.1 ≠ 0) (hps2 : s0.PixelSpacing.2 ≠ 0) :
    ∃ r : LoadResult,
      DICOMLoader.load_dicom_folder files = .ok r ∧
      r.image_shape = [(W : Int), (H : Int), (files.length : Int)] ∧
      r.volume_3d = (sortSlices files).map Dataset.pixel_array ∧
      r.volume_3d.headD [] = s0.pixel_array ∧
      (sortSlices files).Pairwise sliceLE ∧
      ∀ d ∈ files, posZ s0 ≤ posZ d := by
  have hlen : (s0 :: rest).length = files.length := by
    rw [← hsort]
    exact (sortSlices_perm files).length_eq
  refine ⟨_, load_spec hW hsort hshape hps1 hps2, ?_, ?_, ?_, ?_, ?_⟩
  · simp only [hlen]
  · rw [hsort]
  · simp
  · exact sortSlices_pairwise files
  · intro d hd
    have hd2 : d ∈ s0 :: rest := by
      rw [← hsort]
      exact ((sortSlices_perm files).symm).subset hd
    rcases List.mem_cons.mp hd2 with h | h
    · rw [h]
    · have hp := sortSlices_pairwise files
      rw [hsort] at hp
      exact (List.pairwise_cons.mp hp).1 d h

/-- Witness for C2: two 1×1 slices enumerated in reverse position order. -/
theorem claim_C2_witness :
    ∃ r : LoadResult,
      DICOMLoader.load_dicom_folder [dsZ1, dsZ0] = .ok r ∧
      r.image_shape = [(1 : Int), (1 : Int), (([dsZ1, dsZ0] : List Dataset).length : Int)] ∧
      r.volume_3d = (sortSlices [dsZ1, dsZ0]).map Dataset.pixel_array ∧
      r.volume_3d.headD [] = dsZ0.pixel_array ∧
      (sortSlices [dsZ1, dsZ0]).Pairwise sliceLE ∧
      ∀ d ∈ [dsZ1, dsZ0], posZ dsZ0 ≤ posZ d :=
  @claim_C2_theorem [dsZ1, dsZ0] dsZ0 [dsZ1] 1 1 (by norm_num) (by decide) (by decide)
    (by decide) (by decide)

/-- C3 (amended): all three ratios come from the first sorted slice, with
axial = colSpacing / rowSpacing (that is, PixelSpacing[1] / PixelSpacing[0]),
sagittal = rowSpacing / colSpacing = 1 / axial, and
coronal = thickness / rowSpacing (thickness / PixelSpacing[0]). The claim's
formulas for axial and coronal name the opposite spacing components. -/
theorem claim_C3_theorem {files : List Dataset} {s0 : Dataset} {rest : List Dataset}
    {r : LoadResult} (hsort : sortSlices files = s0 :: rest)
    (hok : DICOMLoader.load_dicom_folder files = .ok r) :
    r.axial_aspect_ratio = colSpacing s0 / rowSpacing s0 ∧
    r.sagittal_aspect_ratio = rowSpacing s0 / colSpacing s0 ∧
    r.sagittal_aspect_ratio = (r.axial_aspect_ratio)⁻¹ ∧
    r.coronal_aspect_ratio = s0.SliceThickness / rowSpacing s0 := by
  obtain ⟨t0, trest, vol, hs, h1, h2, hb, hr⟩ := load_ok_inv hok
  rw [hsort] at hs
  injection hs with e1 e2
  subst e1
  rw [hr]
  refine ⟨rfl, rfl, ?_, rfl⟩
  show rowSpacing s0 / colSpacing s0 = (colSpacing s0 / rowSpacing s0)⁻¹
  rw [inv_div]

/-- Witness for C3 (amended): the concrete one-slice folder `[dsSpacing]`. -/
theorem claim_C3_witness :
    ∃ r : LoadResult,
      DICOMLoader.load_dicom_folder [dsSpacing] = .ok r ∧
      r.axial_aspect_ratio = colSpacing dsSpacing / rowSpacing dsSpacing ∧
      r.sagittal_aspect_ratio = rowSpacing dsSpacing / colSpacing dsSpacing ∧
      r.sagittal_aspect_ratio = (r.axial_aspect_ratio)⁻¹ ∧
      r.coronal_aspect_ratio = dsSpacing.SliceThickness / rowSpacing dsSpacing := by
  have h := @load_spec [dsSpacing] dsSpacing [] 1 1 (by norm_num) (by decide) (by decide)
      (by decide) (by decide)
  exact ⟨_, h, @claim_C3_theorem [dsSpacing] dsSpacing [] _ (by decide) h⟩

/-- C3 counterexample: a slice with PixelSpacing = (1, 2) — row spacing 1,
column spacing 2 — and thickness 3. The code returns axial = 2 and
coronal = 3, whereas the claim's formulas rowSpacing/colSpacing and
thickness/colSpacing give 1/2 and 3/2. -/
theorem claim_C3_counterexample :
    (DICOMLoader.load_dicom_folder [dsSpacing]).toOption.map LoadResult.axial_aspect_ratio ≠
      some (specAxialRatio dsSpacing) ∧
    (DICOMLoader.load_dicom_folder [dsSpacing]).toOption.map LoadResult.coronal_aspect_ratio ≠
      some (specCoronalRatio dsSpacing) := by
  have h := @load_spec [dsSpacing] dsSpacing [] 1 1 (by norm_num) (by decide) (by decide)
      (by decide) (by decide)
  rw [h]
  constructor
  · simp only [Except.toOption, Option.map_some]
    intro hcontra
    have := Option.some.inj hcontra
    rw [specAxialRatio, rowSpacing, colSpacing, dsSpacing] at this
    norm_num at this
  · simp only [Except.toOption, Option.map_some]
    intro hcontra
    have := Option.some.inj hcontra
    rw [specCoronalRatio, colSpacing, dsSpacing] at this
    norm_num at this

/-- C4 counterexample: two slices with identical 1×1 grids but different
pixel spacings assemble successfully — no LoadError, no failure at all — so
the claimed validation of consistent geometry does not exist in the code. -/
theorem claim_C4_counterexample :
    dsZ0.PixelSpacing ≠ dsPs2.PixelSpacing ∧
    (DICOMLoader.load_dicom_folder [dsZ0, dsPs2]).toOption.isSome = true := by
  decide

/-- C4 (amended): `load_dicom_folder` performs no geometry validation. Two
slices with rectangular grids of one common shape (W, H), W > 0, and nonzero
spacing components assemble successfully even when their pixel spacings
differ — the first sorted slice's geometry is simply taken as canonical.
Only a pixel grid that cannot broadcast to the first sorted slice's shape
aborts the load (with a numpy ValueError), and an empty folder aborts with
IndexError; neither failure is a dedicated LoadError, which the code does
not define. -/
theorem claim_C4_theorem {d1 d2 : Dataset} {W H : Nat} (hW : 0 < W)
    (hshape : ∀ d ∈ [d1, d2], d.pixel_array.length = W ∧ ∀ row ∈ d.pixel_array, row.length = H)
    (hps : ∀ d ∈ [d1, d2], d.PixelSpacing.1 ≠ 0 ∧ d.PixelSpacing.2 ≠ 0)
    (_hdiff : d1.PixelSpacing ≠ d2.PixelSpacing) :
    (DICOMLoader.load_dicom_folder [d1, d2]).toOption.isSome = true :=
  load_ok_of_shape hW (by simp) hshape hps

/-- Witness for C4 (amended): the mismatched-spacing pair loads. -/
theorem claim_C4_witness :
    (DICOMLoader.load_dicom_folder [dsZ0, dsPs2]).toOption.isSome = true :=
  @claim_C4_theorem dsZ0 dsPs2 1 1 (by norm_num) (by decide) (by decide) (by decide)

namespace DICOMViewerGUI

theorem withUpdate_fst (st : GuiState) : (withUpdate st).1 = st := by
  unfold withUpdate
  cases update_plots st <;> rfl

/-- A scroll up in Axial mode adds 5 to `current_slice` modulo N and changes
no other field. -/
theorem on_scroll_axial_up (st : GuiState) (v : List (List (List Int)))
    (hv : st.volume_3d = some v) (hz : st.zoom_mode = "Axial")
    (hW : 0 < volW v) (hH : 0 < volH v) (hN : 0 < volN v) :
    (on_scroll st "up").1 =
      { st with current_slice := (st.current_slice + 5) % (volN v : Int) } := by
  have hnz : (volN v : Int) ≠ 0 := by
    simp only [ne_eq, Nat.cast_eq_zero]
    omega
  unfold on_scroll
  simp [hz, hv, npLenAxis2, pyMod, hW, hH, hnz, withUpdate_fst]

/-- A scroll down in Axial mode subtracts 5 from `current_slice` modulo N
and changes no other field. -/
theorem on_scroll_axial_down (st : GuiState) (v : List (List (List Int)))
    (hv : st.volume_3d = some v) (hz : st.zoom_mode = "Axial")
    (hW : 0 < volW v) (hH : 0 < volH v) (hN : 0 < volN v) :
    (on_scroll st "down").1 =
      { st with current_slice := (st.current_slice - 5) % (volN v : Int) } := by
  have hnz : (volN v : Int) ≠ 0 := by
    simp only [ne_eq, Nat.cast_eq_zero]
    omega
  unfold on_scroll
  simp [hz, hv, npLenAxis2, pyMod, hW, hH, hnz, withUpdate_fst]

/-- A scroll up in Sagittal mode adds 5 to `image_shape[1]` modulo H and
changes no other field. -/
theorem on_scroll_sagittal_up (st : GuiState) (v : List (List (List Int))) (shp : List Int)
    (hv : st.volume_3d = some v) (hz : st.zoom_mode = "Sagittal")
    (hshp : st.image_shape = some shp) (hlen : shp.length = 3)
    (hW : 0 < volW v) (hH : 0 < volH v) (hN : 0 < volN v) :
    (on_scroll st "up").1 =
      { st with image_shape := some (shp.set 1 ((shp.getD 1 0 + 5) % (volH v : Int))) } := by
  have hnz : (volH v : Int) ≠ 0 := by
    simp only [ne_eq, Nat.cast_eq_zero]
    omega
  have h1 : 1 < shp.length := by omega
  unfold on_scroll
  simp [hz, hv, hshp, npLenAxis1, pyMod, optGet, optSet, hW, hN, hnz, h1, withUpdate_fst,
    List.getD_eq_getElem]

/-- A scroll down in Sagittal mode subtracts 5 from `image_shape[1]` modulo
H and changes no other field. -/
theorem on_scroll_sagittal_down (st : GuiState) (v : List (List (List Int))) (shp : List Int)
    (hv : st.volume_3d = some v) (hz : st.zoom_mode = "Sagittal")
    (hshp : st.image_shape = some shp) (hlen : shp.length = 3)
    (hW : 0 < volW v) (hH : 0 < volH v) (hN : 0 < volN v) :
    (on_scroll st "down").1 =
      { st with image_shape := some (shp.set 1 ((shp.getD 1 0 - 5) % (volH v : Int))) } := by
  have hnz : (volH v : Int) ≠ 0 := by
    simp only [ne_eq, Nat.cast_eq_zero]
    omega
  have h1 : 1 < shp.length := by omega
  unfold on_scroll
  simp [hz, hv, hshp, npLenAxis1, pyMod, optGet, optSet, hW, hN, hnz, h1, withUpdate_fst,
    List.getD_eq_getElem]

/-- A scroll up in Coronal mode adds 5 to `image_shape[0]` modulo W and
changes no other field. -/
theorem on_scroll_coronal_up (st : GuiState) (v : List (List (List Int))) (shp : List Int)
    (hv : st.volume_3d = some v) (hz : st.zoom_mode = "Coronal")
    (hshp : st.image_shape = some shp) (hlen : shp.length = 3)
    (hW : 0 < volW v) (hH : 0 < volH v) (hN : 0 < volN v) :
    (on_scroll st "up").1 =
      { st with image_shape := some (shp.set 0 ((shp.getD 0 0 + 5) % (volW v : Int))) } := by
  have hnz : (volW v : Int) ≠ 0 := by
    simp only [ne_eq, Nat.cast_eq_zero]
    omega
  have h0 : 0 < shp.length := by omega
  unfold on_scroll
  simp [hz, hv, hshp, npLenAxis0, pyMod, optGet, optSet, hH, hN, hnz, h0, withUpdate_fst,
    List.getD_eq_getElem]

/-- A scroll down in Coronal mode subtracts 5 from `image_shape[0]` modulo W
and changes no other field. -/
theorem on_scroll_coronal_down (st : GuiState) (v : List (List (List Int))) (shp : List Int)
    (hv : st.volume_3d = some v) (hz : st.zoom_mode = "Coronal")
    (hshp : st.image_shape = some shp) (hlen : shp.length = 3)
    (hW : 0 < volW v) (hH : 0 < volH v) (hN : 0 < volN v) :
    (on_scroll st "down").1 =
      { st with image_shape := some (shp.set 0 ((shp.getD 0 0 - 5) % (volW v : Int))) } := by
  have hnz : (volW v : Int) ≠ 0 := by
    simp only [ne_eq, Nat.cast_eq_zero]
    omega
  have h0 : 0 < shp.length := by omega
  unfold on_scroll
  simp [hz, hv, hshp, npLenAxis0, pyMod, optGet, optSet, hH, hN, hnz, h0, withUpdate_fst,
    List.getD_eq_getElem]

end DICOMViewerGUI

namespace DICOMViewerGUI

/-- A loaded 7-slice volume of 1×1 cross-sections. -/
def vol7 : List (List (List Int)) := [[[0]], [[1]], [[2]], [[3]], [[4]], [[5]], [[6]]]

/-- The viewer state right after loading `vol7`: `current_slice = 7 // 2 = 3`,
fresh `image_shape = [1, 1, 7]`, default Axial mode, figure created. -/
def st7 : GuiState :=
  { volume_3d := some vol7
    current_slice := 3
    image_shape := some [1, 1, 7]
    axial_aspect_ratio := some 1
    sagittal_aspect_ratio := some 1
    coronal_aspect_ratio := some 1
    zoom_mode := "Axial"
    axs_created := true }

/-- C5: a scroll event with direction up (Forward) or down (Backward)
changes exactly the active plane's stored navigation index by +5 or -5,
reduced modulo the length of that plane's volume axis with Python `%`
semantics (a negative value wraps to the high end; nothing is clamped), and
leaves the other planes' indices, the volume and every other field
unchanged. The navigation indices are `current_slice` for Axial and the
stored reference entries `image_shape[1]` / `image_shape[0]` for Sagittal /
Coronal, the values `update_plots` halves to obtain the cut positions. -/
theorem claim_C5_theorem (st : GuiState) (v : List (List (List Int))) (shp : List Int)
    (hv : st.volume_3d = some v) (hshp : st.image_shape = some shp)
    (hlen : shp.length = 3) (hW : 0 < volW v) (hH : 0 < volH v) (hN : 0 < volN v) :
    (st.zoom_mode = "Axial" →
      (on_scroll st "up").1 =
        { st with current_slice := (st.current_slice + 5) % (volN v : Int) } ∧
      (on_scroll st "down").1 =
        { st with current_slice := (st.current_slice - 5) % (volN v : Int) }) ∧
    (st.zoom_mode = "Sagittal" →
      (on_scroll st "up").1 =
        { st with image_shape := some (shp.set 1 ((shp.getD 1 0 + 5) % (volH v : Int))) } ∧
      (on_scroll st "down").1 =
        { st with image_shape := some (shp.set 1 ((shp.getD 1 0 - 5) % (volH v : Int))) }) ∧
    (st.zoom_mode = "Coronal" →
      (on_scroll st "up").1 =
        { st with image_shape := some (shp.set 0 ((shp.getD 0 0 + 5) % (volW v : Int))) } ∧
      (on_scroll st "down").1 =
        { st with image_shape := some (shp.set 0 ((shp.getD 0 0 - 5) % (volW v : Int))) }) :=
  ⟨fun hz => ⟨on_scroll_axial_up st v hv hz hW hH hN,
              on_scroll_axial_down st v hv hz hW hH hN⟩,
   fun hz => ⟨on_scroll_sagittal_up st v shp hv hz hshp hlen hW hH hN,
              on_scroll_sagittal_down st v shp hv hz hshp hlen hW hH hN⟩,
   fun hz => ⟨on_scroll_coronal_up st v shp hv hz hshp hlen hW hH hN,
              on_scroll_coronal_down st v shp hv hz hshp hlen hW hH hN⟩⟩

/-- Witness for C5: on the freshly loaded 7-slice state, one forward scroll
moves `current_slice` from 3 to (3 + 5) % 7 = 1 and nothing else. -/
theorem claim_C5_witness :
    (on_scroll st7 "up").1 =
      { st7 with current_slice := (st7.current_slice + 5) % (volN vol7 : Int) } :=
  ((claim_C5_theorem st7 vol7 [1, 1, 7] rfl rfl (by decide) (by decide) (by decide)
    (by decide)).1 rfl).1

/-- Iterated forward scrolling in Axial mode accumulates +5 per event,
modulo the slice count. -/
theorem scrollUpIter_current (v : List (List (List Int)))
    (hW : 0 < volW v) (hH : 0 < volH v) (hN : 0 < volN v) :
    ∀ (k : Nat) (st : GuiState), st.volume_3d = some v → st.zoom_mode = "Axial" →
      (scrollUpIter st (k + 1)).current_slice =
        (st.current_slice + 5 * ((k : Int) + 1)) % (volN v : Int)
  | 0, st, hv, hz => by
    rw [scrollUpIter, scrollUpIter, on_scroll_axial_up st v hv hz hW hH hN]
    norm_num
  | k + 1, st, hv, hz => by
    rw [scrollUpIter, on_scroll_axial_up st v hv hz hW hH hN]
    have hv2 : ({ st with current_slice := (st.current_slice + 5) % (volN v : Int) }
        : GuiState).volume_3d = some v := hv
    have hz2 : ({ st with current_slice := (st.current_slice + 5) % (volN v : Int) }
        : GuiState).zoom_mode = "Axial" := hz
    rw [scrollUpIter_current v hW hH hN k _ hv2 hz2]
    push_cast
    conv_lhs => rw [Int.add_emod, Int.emod_emod_of_dvd _ dvd_rfl, ← Int.add_emod]
    congr 1
    ring

/-- C6 counterexample: on the freshly loaded 7-slice state (axial index
3 = 7 // 2), ceil(7/5) = 2 forward scrolls land on index
(3 + 10) % 7 = 6 ≠ 3, so ceil(N/5) forward scrolls do not return the axial
index to its starting value. -/
theorem claim_C6_counterexample :
    (7 + 5 - 1) / 5 = 2 ∧
    (scrollUpIter st7 2).current_slice ≠ st7.current_slice := by
  decide

/-- C6 (amended): on a loaded volume with N axial slices (active plane
Axial, index in range), `scroll(Forward)` repeated N / gcd(N, 5) times —
the order of +5 in Z/N, which equals ceil(N/5) only when 5 divides N or
N = 1 — returns `current_slice` to its original value. -/
theorem claim_C6_theorem (st : GuiState) (v : List (List (List Int)))
    (hv : st.volume_3d = some v) (hz : st.zoom_mode = "Axial")
    (hW : 0 < volW v) (hH : 0 < volH v) (hN : 0 < volN v)
    (hc0 : 0 ≤ st.current_slice) (hcN : st.current_slice < (volN v : Int)) :
    (scrollUpIter st (volN v / Nat.gcd (volN v) 5)).current_slice = st.current_slice := by
  have hg : 0 < Nat.gcd (volN v) 5 := Nat.gcd_pos_of_pos_right _ (by norm_num)
  have hkpos : 0 < volN v / Nat.gcd (volN v) 5 :=
    Nat.div_pos (Nat.le_of_dvd hN (Nat.gcd_dvd_left (volN v) 5)) hg
  obtain ⟨k, hk⟩ : ∃ k, volN v / Nat.gcd (volN v) 5 = k + 1 :=
    ⟨volN v / Nat.gcd (volN v) 5 - 1, by omega⟩
  rw [hk, scrollUpIter_current v hW hH hN k st hv hz]
  have hnat : 5 * (volN v / Nat.gcd (volN v) 5) = volN v * (5 / Nat.gcd (volN v) 5) := by
    rw [← Nat.mul_div_assoc 5 (Nat.gcd_dvd_left (volN v) 5),
      ← Nat.mul_div_assoc (volN v) (Nat.gcd_dvd_right (volN v) 5), Nat.mul_comm 5 (volN v)]
  have hint : (5 : Int) * ((k : Int) + 1) =
      (volN v : Int) * ((5 / Nat.gcd (volN v) 5 : Nat) : Int) := by
    have hcast : ((k : Int) + 1) = ((volN v / Nat.gcd (volN v) 5 : Nat) : Int) := by
      rw [hk]
      push_cast
      ring
    rw [hcast]
    exact_mod_cast congrArg (Nat.cast : Nat → Int) hnat
  rw [hint, Int.add_mul_emod_self_left, Int.emod_eq_of_lt hc0 hcN]

/-- Witness for C6 (amended): N = 7, gcd(7, 5) = 1, so 7 forward scrolls
return the index to 3. -/
theorem claim_C6_witness :
    (scrollUpIter st7 (volN vol7 / Nat.gcd (volN vol7) 5)).current_slice = st7.current_slice :=
  claim_C6_theorem st7 vol7 rfl rfl (by decide) (by decide) (by decide) (by decide) (by decide)

end DICOMViewerGUI

namespace DICOMViewerGUI

/-- C7 (amended): navigating before any successful load does fail, but with
a `TypeError` from operating on still-`None` attributes — `update_plots`
trips on iterating `self.axs`, `on_scroll` on subscripting `self.volume_3d`
(or, for buttons matching no branch, inside its final `update_plots` call) —
not with a dedicated `NotLoadedError`, which the code never defines or
raises. The state is left unchanged. -/
theorem claim_C7_theorem (b : String) :
    update_plots initial = .error PyError.typeError ∧
    on_scroll initial b = (initial, some PyError.typeError) := by
  refine ⟨rfl, ?_⟩
  unfold on_scroll
  by_cases hb : b = "up"
  · simp [hb, npLenAxis2, update_plots, withUpdate, initial]
  by_cases hb2 : b = "down"
  · simp [hb, hb2, npLenAxis2, update_plots, withUpdate, initial]
  · simp [hb, hb2, update_plots, withUpdate, initial]

/-- C7 counterexample: before any load, both `update_plots` (the
`currentSlices` read) and `on_scroll` raise `TypeError`, which is not the
`NotLoadedError` the claim names — the code has no such error class. -/
theorem claim_C7_counterexample :
    update_plots initial = .error PyError.typeError ∧
    on_scroll initial "up" = (initial, some PyError.typeError) ∧
    PyError.typeError ≠ PyError.notLoadedError := by
  decide

/-- C8: when the assembler raises, the GUI handler's tuple assignment on
lines 83-84 never executes — its right-hand side is evaluated first — so the
previously held volume, shape, aspect ratios and navigation state are all
unchanged (the returned state is exactly the input state) and the exception
is surfaced to the caller. -/
theorem claim_C8_theorem (st : GuiState) (files : List Dataset) (e : PyError)
    (hfail : DICOMLoader.load_dicom_folder files = .error e) :
    load_dicom_folder st (some files) = (st, some e) := by
  simp only [load_dicom_folder, hfail]

/-- Witness for C8: loading an empty folder (the assembler raises
`IndexError` at `slices[0]`) leaves the freshly initialised state intact. -/
theorem claim_C8_witness :
    load_dicom_folder initial (some []) = (initial, some PyError.indexError) :=
  claim_C8_theorem initial [] PyError.indexError (by decide)

/-- The initial state with the Sagittal plane active, as after clicking the
Sagittal button (used against C9). -/
def stSag : GuiState := { initial with zoom_mode := "Sagittal" }

/-- C9 counterexample: a successful load performed while the active plane is
Sagittal completes without error yet leaves the active plane Sagittal —
`display_dicom` resets `current_slice`, but nothing resets `zoom_mode` to
the default Axial. -/
theorem claim_C9_counterexample :
    (load_dicom_folder stSag (some [dsZ0])).2 = none ∧
    (load_dicom_folder stSag (some [dsZ0])).1.zoom_mode = "Sagittal" ∧
    "Sagittal" ≠ "Axial" := by
  decide

/-- C9 (amended): after every successful load the slice indices are reset to
the volume centre — `current_slice` becomes `image_shape[2] // 2 = N // 2`,
and the freshly stored `image_shape = [W, H, N]` makes the sagittal and
coronal cut positions `image_shape[1] // 2 = H // 2` and
`image_shape[0] // 2 = W // 2` — and the new volume and ratios are held; but
the active plane is NOT reset: `zoom_mode` keeps its previous value, being
written only by `__init__` and `set_zoom_mode`. -/
theorem claim_C9_theorem (st : GuiState) (files : List Dataset) (r : LoadResult)
    (hok : DICOMLoader.load_dicom_folder files = .ok r) :
    (load_dicom_folder st (some files)).1.volume_3d = some r.volume_3d ∧
    (load_dicom_folder st (some files)).1.image_shape = some r.image_shape ∧
    (load_dicom_folder st (some files)).1.current_slice = (files.length : Int) / 2 ∧
    (load_dicom_folder st (some files)).1.zoom_mode = st.zoom_mode ∧
    (load_dicom_folder st (some files)).1.axs_created = true := by
  obtain ⟨s0, rest, vol, hs, h1, h2, hb, hr⟩ := load_ok_inv hok
  have hN : (s0 :: rest).length = files.length := by
    rw [← hs]
    exact (sortSlices_perm files).length_eq
  have hshape2 : r.image_shape = [((npShape s0.pixel_array).1 : Int),
      ((npShape s0.pixel_array).2 : Int), ((s0 :: rest).length : Int)] := by
    rw [hr]
  simp only [load_dicom_folder, hok, display_dicom]
  rw [hshape2]
  simp only [optGet]
  norm_num [withUpdate_fst, hN]

/-- The result of loading the single-slice folder `[dsZ0]`. -/
def rZ0 : LoadResult :=
  ⟨[dsZ0.pixel_array], [(1 : Int), (1 : Int), (1 : Int)],
   dsZ0.PixelSpacing.2 / dsZ0.PixelSpacing.1,
   dsZ0.PixelSpacing.1 / dsZ0.PixelSpacing.2,
   dsZ0.SliceThickness / dsZ0.PixelSpacing.1⟩

/-- Witness for C9 (amended): loading `[dsZ0]` while the Sagittal plane is
active resets the indices but keeps `zoom_mode = "Sagittal"`. -/
theorem claim_C9_witness :
    (load_dicom_folder stSag (some [dsZ0])).1.volume_3d = some rZ0.volume_3d ∧
    (load_dicom_folder stSag (some [dsZ0])).1.image_shape = some rZ0.image_shape ∧
    (load_dicom_folder stSag (some [dsZ0])).1.current_slice =
      (([dsZ0] : List Dataset).length : Int) / 2 ∧
    (load_dicom_folder stSag (some [dsZ0])).1.zoom_mode = stSag.zoom_mode ∧
    (load_dicom_folder stSag (some [dsZ0])).1.axs_created = true :=
  claim_C9_theorem stSag [dsZ0] rZ0
    (@load_spec [dsZ0] dsZ0 [] 1 1 (by norm_num) (by decide) (by decide) (by decide) (by decide))

/-- One scroll event of any direction, received while the Axial plane is
active on a loaded volume with the current index in range, keeps the index
in range and preserves the volume and the active plane. -/
theorem on_scroll_axial_invariant (st : GuiState) (v : List (List (List Int))) (b : String)
    (hv : st.volume_3d = some v) (hz : st.zoom_mode = "Axial")
    (h0 : 0 ≤ st.current_slice) (hN : st.current_slice < (volN v : Int)) :
    (on_scroll st b).1.volume_3d = some v ∧ (on_scroll st b).1.zoom_mode = "Axial" ∧
    0 ≤ (on_scroll st b).1.current_slice ∧ (on_scroll st b).1.current_slice < (volN v : Int) := by
  have hNpos : (0 : Int) < (volN v : Int) := lt_of_le_of_lt h0 hN
  have hNnz : (volN v : Int) ≠ 0 := ne_of_gt hNpos
  by_cases hWH : 0 < volW v ∧ 0 < volH v
  · by_cases hb : b = "up"
    · have hstep := on_scroll_axial_up st v hv hz hWH.1 hWH.2 (by exact_mod_cast hNpos)
      rw [hb, hstep]
      exact ⟨hv, hz, Int.emod_nonneg _ hNnz, Int.emod_lt_of_pos _ hNpos⟩
    by_cases hb2 : b = "down"
    · have hstep := on_scroll_axial_down st v hv hz hWH.1 hWH.2 (by exact_mod_cast hNpos)
      rw [hb2, hstep]
      exact ⟨hv, hz, Int.emod_nonneg _ hNnz, Int.emod_lt_of_pos _ hNpos⟩
    · have : (on_scroll st b).1 = st := by
        unfold on_scroll
        simp [hz, hb, hb2, withUpdate_fst]
      rw [this]
      exact ⟨hv, hz, h0, hN⟩
  · have : (on_scroll st b).1 = st := by
      unfold on_scroll
      by_cases hb : b = "up"
      · simp [hz, hb, hv, npLenAxis2, hWH, withUpdate_fst]
      by_cases hb2 : b = "down"
      · simp [hz, hb, hb2, hv, npLenAxis2, hWH, withUpdate_fst]
      · simp [hz, hb, hb2, withUpdate_fst]
    rw [this]
    exact ⟨hv, hz, h0, hN⟩

/-- C10: once a volume with at least one axial slice is loaded and the
active plane is Axial, delivering any sequence of scroll events keeps
`current_slice` within [0, N-1] — Python's modulo by the positive axis
length is never negative — so the axial cut index the renderer uses stays in
bounds. -/
theorem claim_C10_theorem (buttons : List String) (st : GuiState)
    (v : List (List (List Int)))
    (hv : st.volume_3d = some v) (hz : st.zoom_mode = "Axial")
    (h0 : 0 ≤ st.current_slice) (hN : st.current_slice < (volN v : Int)) :
    0 ≤ (scrollSeq st buttons).current_slice ∧
    (scrollSeq st buttons).current_slice < (volN v : Int) := by
  induction buttons generalizing st with
  | nil => exact ⟨h0, hN⟩
  | cons b bs ih =>
    obtain ⟨g1, g2, g3, g4⟩ := on_scroll_axial_invariant st v b hv hz h0 hN
    simpa [scrollSeq] using ih (on_scroll st b).1 g1 g2 g3 g4

/-- Witness for C10: from the freshly loaded 7-slice state, a mixed event
sequence (including an unrecognised button) keeps the index in [0, 6]. -/
theorem claim_C10_witness :
    0 ≤ (scrollSeq st7 ["up", "down", "left", "up", "up"]).current_slice ∧
    (scrollSeq st7 ["up", "down", "left", "up", "up"]).current_slice < (volN vol7 : Int) :=
  claim_C10_theorem ["up", "down", "left", "up", "up"] st7 vol7 rfl rfl (by decide) (by decide)

end DICOMViewerGUI

namespace DICOMViewerGUI

/-- Witness for C7 (amended): an unrecognised scroll direction before any
load also fails with `TypeError` inside the final `update_plots` call. -/
theorem claim_C7_witness :
    update_plots initial = .error PyError.typeError ∧
    on_scroll initial "left" = (initial, some PyError.typeError) :=
  claim_C7_theorem "left"

end DICOMViewerGUI
